import Mathlib

/-!
Shallow embedding of the contacts-management backend (repository layer
`src/repository/contacts.py`, `src/repository/users.py`, model layer
`src/database/models.py`, route layer `src/routes/contacts.py`).

The database is modelled as a list of rows in insertion order; an
SQLAlchemy `select ... filter_by` pipeline becomes `List.filter`,
`offset`/`limit` become `List.drop`/`List.take`, `scalar_one_or_none`
over a primary-key filter becomes `List.find?`, and in-place mutation of
the ORM object found by the query becomes replacement of the first
matching row.  Fallible operations return `Except`; a raised Python
exception is the `.error` constructor.  `date.today()` is passed in as
explicit `todayMonth`/`todayDay` arguments.
-/

namespace ContactsApp

/-- A calendar date as stored in the `birthday` column (`datetime.date`). -/
structure PyDate where
  year : Nat
  month : Nat
  day : Nat
deriving DecidableEq, Repr

/-- Row of the `contacts` table (`src/database/models.py`, class `Contact`).
`created_at`/`updated_at` are database-managed default columns and are not
part of the embedded state; `id` is the autoincrement primary key and
`user_id` the owner foreign key. -/
structure Contact where
  id : Nat
  first_name : String
  last_name : String
  email : String
  phone_number : String
  birthday : Option PyDate
  user_id : Nat
deriving DecidableEq, Repr

/-- Request body shared by creation and update
(`src/schemas/contacts.py`, class `ContactBase`). -/
structure ContactBase where
  first_name : String
  last_name : String
  email : String
  phone_number : String
  birthday : Option PyDate
deriving DecidableEq, Repr

/-- Mirrors `class ContactCreate(ContactBase): pass`. -/
abbrev ContactCreate := ContactBase

/-- Mirrors `class ContactUpdate(ContactBase): pass`. -/
abbrev ContactUpdate := ContactBase

/-- The contacts table: rows in insertion order. -/
abbrev ContactDB := List Contact

/-- Row predicate for `filter_by(id=contact_id, user_id=user.id)`. -/
def ownedBy (cid uid : Nat) (c : Contact) : Bool :=
  c.id == cid && c.user_id == uid

/-- Replace the first row satisfying `p` by `a` (in-place mutation of the
ORM object returned by `scalar_one_or_none`, committed by `db.commit()`). -/
def replaceFirst (p : α → Bool) (a : α) : List α → List α
  | [] => []
  | x :: xs => if p x then a :: xs else x :: replaceFirst p a xs

/-- Next autoincrement value for the `id` primary key. -/
def nextId (db : ContactDB) : Nat :=
  db.foldr (fun c acc => max c.id acc) 0 + 1

/-- Outcome of a mutating repository call: the value the Python function
returns, the table after the call, and whether `db.commit()` was issued. -/
structure MutResult where
  returned : Option Contact
  db : ContactDB
  committed : Bool
deriving DecidableEq, Repr

/-- Function `create(body, db, user)` from `src/repository/contacts.py`.  Builds
`Contact(**body.model_dump(), user_id=user.id)`, adds and commits it.
`commitFails` models the storage layer raising during add/commit/refresh;
in that case the `except` block raises `HTTPException(500)`, modelled as
`.error 500`. -/
def create (body : ContactCreate) (db : ContactDB) (uid : Nat)
    (commitFails : Bool) : Except Nat (Contact × ContactDB) :=
  if commitFails then
    .error 500
  else
    let contact : Contact :=
      { id := nextId db
        first_name := body.first_name
        last_name := body.last_name
        email := body.email
        phone_number := body.phone_number
        birthday := body.birthday
        user_id := uid }
    .ok (contact, db ++ [contact])

/-- Function `get_contacts(limit, offset, db, user)`:
`select(Contact).filter_by(user_id=user.id).offset(offset).limit(limit)`. -/
def get_contacts (limit offset : Nat) (db : ContactDB) (uid : Nat) : List Contact :=
  ((db.filter (fun c => c.user_id == uid)).drop offset).take limit

/-- Function `get_contact(contact_id, db, user)`:
`select(Contact).filter_by(id=contact_id, user_id=user.id)` then
`scalar_one_or_none()`. -/
def get_contact (cid : Nat) (db : ContactDB) (uid : Nat) : Option Contact :=
  db.find? (ownedBy cid uid)

/-- Assignment of the five body fields onto the fetched contact
(`contact.first_name = body.first_name` ... `contact.birthday = body.birthday`). -/
def applyUpdate (c : Contact) (body : ContactUpdate) : Contact :=
  { c with
    first_name := body.first_name
    last_name := body.last_name
    email := body.email
    phone_number := body.phone_number
    birthday := body.birthday }

/-- Function `update_contact(contact_id, body, db, user)`: fetch by
`filter_by(id=contact_id, user_id=user.id)`; `if contact:` assign the five
fields and commit; return the contact (or `None` when nothing matched). -/
def update_contact (cid : Nat) (body : ContactUpdate) (db : ContactDB)
    (uid : Nat) : MutResult :=
  match db.find? (ownedBy cid uid) with
  | none => ⟨none, db, false⟩
  | some c =>
    let c' := applyUpdate c body
    ⟨some c', replaceFirst (ownedBy cid uid) c' db, true⟩

/-- Function `delete_contact(contact_id, db, user)`: fetch by
`filter_by(id=contact_id, user_id=user.id)`; `if contact:` delete it and
commit; return the contact (or `None`). -/
def delete_contact (cid : Nat) (db : ContactDB) (uid : Nat) : MutResult :=
  match db.find? (ownedBy cid uid) with
  | none => ⟨none, db, false⟩
  | some c => ⟨some c, db.eraseP (ownedBy cid uid), true⟩

/-- Function `get_birthdays(days, db, user)`: after `days = days + 1`, selects rows
with `user_id == user.id`, `extract(month, birthday) == date.today().month`
and `extract(day, birthday) <= date.today().day + days`.  The current date
is passed as explicit `todayMonth`/`todayDay`; a SQL `extract` on a NULL
birthday yields NULL, which satisfies neither comparison. -/
def get_birthdays (days todayMonth todayDay : Nat) (db : ContactDB)
    (uid : Nat) : List Contact :=
  let days := days + 1
  db.filter (fun c =>
    c.user_id == uid &&
      match c.birthday with
      | some b => b.month == todayMonth && decide (b.day ≤ todayDay + days)
      | none => false)

/-- Python truthiness of an optional string filter (`if first_name:`):
`None` and the empty string are falsy. -/
def truthy : Option String → Bool
  | none => false
  | some s => !s.isEmpty

/-- Predicate `leadsWith pat hay`: `pat` occurs at the head of `hay`. -/
def leadsWith : List Char → List Char → Bool
  | [], _ => true
  | _ :: _, [] => false
  | p :: ps, h :: hs => p == h && leadsWith ps hs

/-- Predicate `occursIn pat hay`: `pat` occurs contiguously somewhere in `hay`. -/
def occursIn (pat : List Char) : List Char → Bool
  | [] => pat.isEmpty
  | c :: hs => leadsWith pat (c :: hs) || occursIn pat hs

/-- ASCII lowering of a character, as done by SQL `lower`/`ilike`. -/
def lowerChar (c : Char) : Char :=
  if 65 ≤ c.toNat ∧ c.toNat ≤ 90 then Char.ofNat (c.toNat + 32) else c

/-- SQL `column.ilike(f"%-pat-%")` with the pattern wrapped in percent signs:
case-insensitive substring containment. -/
def ilikeSub (field pat : String) : Bool :=
  occursIn (pat.toList.map lowerChar) (field.toList.map lowerChar)

/-- Function `search(first_name, last_name, email, skip, limit, db, user)`: starts
from `filter_by(user_id=user.id)`, adds an `ilike` filter for each truthy
argument, applies `offset(skip).limit(limit)` and executes.  `execFails`
models the `db.execute` call raising: the `except` block returns `[]`. -/
def search (first_name last_name email : Option String) (skip limit : Nat)
    (db : ContactDB) (uid : Nat) (execFails : Bool) : List Contact :=
  if execFails then []
  else
    let q := db.filter (fun c => c.user_id == uid)
    let q := if truthy first_name then
        q.filter (fun c => ilikeSub c.first_name (first_name.getD "")) else q
    let q := if truthy last_name then
        q.filter (fun c => ilikeSub c.last_name (last_name.getD "")) else q
    let q := if truthy email then
        q.filter (fun c => ilikeSub c.email (email.getD "")) else q
    (q.drop skip).take limit

/-- Row of the `users` table (`src/database/models.py`, class `User`);
timestamp columns are database-managed and not part of the embedded state. -/
structure User where
  id : Nat
  username : String
  email : String
  password : String
  refresh_token : Option String
  avatar : Option String
  confirmed : Bool
deriving DecidableEq, Repr

/-- The users table: rows in insertion order. -/
abbrev UserDB := List User

/-- Function `get_user_by_email(email, db)` from `src/repository/users.py`:
`select(User).filter_by(email=email)` then `scalar_one_or_none()`. -/
def get_user_by_email (email : String) (db : UserDB) : Option User :=
  db.find? (fun u => u.email == email)

/-- Function `confirmed_email(email, db)`: calls `get_user_by_email`, then executes
`user.confirmed = True` and commits.  When no user matched, `user` is
`None` and the attribute assignment raises `AttributeError`, modelled as
`.error "AttributeError"`; otherwise the fetched row is mutated in place
and the new table is returned. -/
def confirmed_email (email : String) (db : UserDB) : Except String UserDB :=
  match get_user_by_email email db with
  | none => .error "AttributeError"
  | some u =>
    .ok (replaceFirst (fun x => x.email == email) { u with confirmed := true } db)

/-- A response of the HTTP route layer (`src/routes/contacts.py`): either a
success with a status code and body, or a raised `HTTPException` with a
status code and detail string. -/
inductive RouteResponse where
  | success (status : Nat) (contact : Contact)
  | failure (status : Nat) (detail : String)
deriving DecidableEq, Repr

/-- Status code carried by a route response. -/
def RouteResponse.status : RouteResponse → Nat
  | success s _ => s
  | failure s _ => s

/-- Route handler `create_contact` (`POST /api/contacts`, decorated with
`status_code=HTTP_201_CREATED`): calls `repository_contacts.create` inside
`try:`; any exception — including the repository's own
`HTTPException(500)` — is caught by `except Exception:` and re-raised as
`HTTPException(404, "NOT FOUND")`. -/
def create_contact_route (body : ContactCreate) (db : ContactDB) (uid : Nat)
    (commitFails : Bool) : RouteResponse × ContactDB :=
  match create body db uid commitFails with
  | .ok (c, db') => (.success 201 c, db')
  | .error _ => (.failure 404 "NOT FOUND", db)

/-! Sample rows used by witnesses and counterexamples. -/

/-- Contact row with id 1 owned by user 2 (the "other owner" scenario). -/
def strangerRow : Contact := ⟨1, "John", "Doe", "john@x.com", "123", none, 2⟩

/-- Contact row with id 3 owned by user 7. -/
def otherRow : Contact := ⟨3, "Ann", "Lee", "ann@x.com", "555", none, 7⟩

/-- Contact row with id 1 owned by user 1. -/
def johnRow : Contact := ⟨1, "John", "Doe", "john@x.com", "123", none, 1⟩

/-- Contact row with id 2 owned by user 2. -/
def janeRow : Contact := ⟨2, "Jane", "Roe", "jane@x.com", "456", some ⟨1990, 5, 12⟩, 2⟩

/-- A full-update request body. -/
def sampleBody : ContactUpdate := ⟨"Johnny", "Doe", "john@x.com", "999", none⟩

/-- A creation request body (the example of the spec's testable properties). -/
def sampleCreate : ContactCreate := ⟨"John", "Doe", "john@x.com", "123", none⟩

/-- The row `create` persists for `sampleCreate` on an empty table as user 1. -/
def sampleCreated : Contact := ⟨1, "John", "Doe", "john@x.com", "123", none, 1⟩

/-- A user row with confirmed still false. -/
def bobUser : User := ⟨1, "bob", "bob@x.com", "hash", none, none, false⟩

/-! Helper lemmas. -/

/-- If no row carries both the requested id and the requesting user's id,
the `filter_by(id=..., user_id=...)` lookup finds nothing. -/
theorem find_owned_eq_none {cid uid : Nat} {db : ContactDB}
    (h : ∀ c ∈ db, ¬(c.id = cid ∧ c.user_id = uid)) :
    db.find? (ownedBy cid uid) = none := by
  rw [List.find?_eq_none]
  intro c hc
  simp only [ownedBy, Bool.and_eq_true, beq_iff_eq]
  exact h c hc

/-- Re-running `find?` after replacing its first hit by a row that still
satisfies the predicate finds the replacement. -/
theorem find?_replaceFirst_self {α : Type} {p : α → Bool} {a : α}
    (ha : p a = true) {l : List α} {c : α} (h : l.find? p = some c) :
    (replaceFirst p a l).find? p = some a := by
  induction l with
  | nil => simp [List.find?] at h
  | cons x xs ih =>
    cases hx : p x with
    | true => simp [replaceFirst, hx, ha]
    | false =>
      rw [List.find?_cons_of_neg _ (by simp [hx])] at h
      simp [replaceFirst, hx, ih h]

/-- Replacing the first hit twice by the same row is the same as once,
provided the replacement itself satisfies the predicate. -/
theorem replaceFirst_idem {α : Type} {p : α → Bool} {a : α} (ha : p a = true)
    (l : List α) : replaceFirst p a (replaceFirst p a l) = replaceFirst p a l := by
  induction l with
  | nil => rfl
  | cons x xs ih =>
    cases hx : p x with
    | true => simp [replaceFirst, hx, ha]
    | false => simp [replaceFirst, hx, ih]

/-! Claim theorems. -/

/-- C1: for every user and contact id, if no contact row has both that id
and `user_id` equal to the user's id, then `get_contact`, `update_contact`
and `delete_contact` each return the not-found sentinel `none`, leave the
table unchanged and commit nothing — even when a row with that id exists
under another owner. -/
theorem cross_tenant_isolation (cid uid : Nat) (body : ContactUpdate)
    (db : ContactDB) (h : ∀ c ∈ db, ¬(c.id = cid ∧ c.user_id = uid)) :
    get_contact cid db uid = none ∧
    update_contact cid body db uid = ⟨none, db, false⟩ ∧
    delete_contact cid db uid = ⟨none, db, false⟩ := by
  have hf := find_owned_eq_none h
  refine ⟨hf, ?_, ?_⟩ <;> simp [update_contact, delete_contact, hf]

/-- Witness for C1: id 1 exists, but owned by user 2; caller is user 1. -/
theorem cross_tenant_isolation_witness :
    (∀ c ∈ [strangerRow], ¬(c.id = 1 ∧ c.user_id = 1)) ∧
    (get_contact 1 [strangerRow] 1 = none ∧
     update_contact 1 sampleBody [strangerRow] 1 = ⟨none, [strangerRow], false⟩ ∧
     delete_contact 1 [strangerRow] 1 = ⟨none, [strangerRow], false⟩) :=
  ⟨by decide, cross_tenant_isolation 1 1 sampleBody [strangerRow] (by decide)⟩

/-- C2: every record returned by a successful `create` carries
`user_id = user.id` of the authenticated caller, never another user's id. -/
theorem create_sets_owner (body : ContactCreate) (db : ContactDB) (uid : Nat)
    (c : Contact) (db' : ContactDB)
    (h : create body db uid false = .ok (c, db')) : c.user_id = uid := by
  simp only [create, Bool.false_eq_true, if_false, Except.ok.injEq,
    Prod.mk.injEq] at h
  obtain ⟨hc, -⟩ := h
  rw [← hc]

/-- Witness for C2: creating the spec's example contact as user 1. -/
theorem create_sets_owner_witness :
    create sampleCreate [] 1 false = .ok (sampleCreated, [sampleCreated]) ∧
    sampleCreated.user_id = 1 :=
  ⟨rfl, create_sets_owner sampleCreate [] 1 sampleCreated [sampleCreated] rfl⟩

/-- C10: when `update_contact` or `delete_contact` is called with an id
matching no contact owned by the caller, the table is left unchanged, no
commit is issued (`committed = false`) and the sentinel `none` is
returned. -/
theorem not_found_frame (cid uid : Nat) (body : ContactUpdate)
    (db : ContactDB) (h : ∀ c ∈ db, ¬(c.id = cid ∧ c.user_id = uid)) :
    update_contact cid body db uid = ⟨none, db, false⟩ ∧
    delete_contact cid db uid = ⟨none, db, false⟩ := by
  have hf := find_owned_eq_none h
  constructor <;> simp [update_contact, delete_contact, hf]

/-- Witness for C10: id 3 exists under owner 7; caller is user 9. -/
theorem not_found_frame_witness :
    (∀ c ∈ [otherRow], ¬(c.id = 3 ∧ c.user_id = 9)) ∧
    (update_contact 3 sampleBody [otherRow] 9 = ⟨none, [otherRow], false⟩ ∧
     delete_contact 3 [otherRow] 9 = ⟨none, [otherRow], false⟩) :=
  ⟨by decide, not_found_frame 3 9 sampleBody [otherRow] (by decide)⟩

/-- C4: `search` with all three filters absent (`None` or empty, i.e.
falsy) returns the same result list as `get_contacts` with the same limit
and offset for the same user. -/
theorem search_no_filters (fn ln em : Option String) (off lim : Nat)
    (db : ContactDB) (uid : Nat)
    (h1 : truthy fn = false) (h2 : truthy ln = false)
    (h3 : truthy em = false) :
    search fn ln em off lim db uid false = get_contacts lim off db uid := by
  simp [search, get_contacts, h1, h2, h3]

/-- Witness for C4: no filters over a two-row table. -/
theorem search_no_filters_witness :
    (truthy none = false ∧ truthy none = false ∧ truthy none = false) ∧
    search none none none 0 10 [johnRow, janeRow] 1 false =
      get_contacts 10 0 [johnRow, janeRow] 1 :=
  ⟨⟨rfl, rfl, rfl⟩, search_no_filters none none none 0 10 [johnRow, janeRow] 1 rfl rfl rfl⟩

/-- C7: when the query execution inside `search` raises, `search` returns
the empty list instead of propagating the error. -/
theorem search_failure_returns_empty (fn ln em : Option String)
    (skip lim : Nat) (db : ContactDB) (uid : Nat) :
    search fn ln em skip lim db uid true = [] := rfl

/-- C3: `get_birthdays` returns exactly the caller's contacts whose
birthday month equals the current month and whose birthday day-of-month is
at most current day-of-month + days + 1.  The characterization constrains
the month to be exactly the current month (no rollover into the next
month) and puts no constraint on the birthday's year. -/
theorem get_birthdays_characterization (days tm td uid : Nat)
    (db : ContactDB) (c : Contact) :
    c ∈ get_birthdays days tm td db uid ↔
      c ∈ db ∧ c.user_id = uid ∧
        ∃ b, c.birthday = some b ∧ b.month = tm ∧ b.day ≤ td + days + 1 := by
  simp only [get_birthdays, List.mem_filter, Bool.and_eq_true, beq_iff_eq]
  cases hb : c.birthday with
  | none => simp [hb]
  | some b => simp [hb, and_assoc, Nat.add_assoc]

/-- A conditionally applied query filter is the unconditional filter whose
predicate is vacuously true when the condition is off. -/
theorem filter_if_truthy {α : Type} (t : Bool) (f : α → Bool) (l : List α) :
    (if t then l.filter f else l) = l.filter (fun a => !t || f a) := by
  cases t <;> simp

/-- Four stacked filters collapse into one conjunctive filter. -/
theorem filter_filter_four {α : Type} (p q r s : α → Bool) (l : List α) :
    (((l.filter p).filter q).filter r).filter s
      = l.filter (fun a => p a && q a && r a && s a) := by
  simp only [List.filter_filter]
  apply List.filter_congr
  intro a _
  cases p a <;> cases q a <;> cases r a <;> cases s a <;> rfl

/-- C8: `search` applies each supplied (truthy) filter as a
case-insensitive substring match (`ilike` with the pattern wrapped in
percent signs), does not apply absent filters, and combines them
conjunctively with the owner scoping: the full query is one filter whose
predicate is the conjunction of owner equality and each supplied
condition. -/
theorem search_conjunctive (fn ln em : Option String) (skip lim : Nat)
    (db : ContactDB) (uid : Nat) :
    search fn ln em skip lim db uid false =
      ((db.filter (fun c => (c.user_id == uid)
          && (!truthy fn || ilikeSub c.first_name (fn.getD ""))
          && (!truthy ln || ilikeSub c.last_name (ln.getD ""))
          && (!truthy em || ilikeSub c.email (em.getD "")))).drop skip).take lim := by
  simp only [search, Bool.false_eq_true, ite_false, filter_if_truthy]
  rw [filter_filter_four]

/-- The five body fields overwrite; assigning them twice is assigning once. -/
theorem applyUpdate_twice (c : Contact) (body : ContactUpdate) :
    applyUpdate (applyUpdate c body) body = applyUpdate c body := rfl

/-- C9: `update_contact` is idempotent — running the same full-overwrite
body twice against the table produced by the first run returns the same
result and the same final table as running it once (for the not-found case
both runs are no-ops). -/
theorem update_contact_idempotent (cid : Nat) (body : ContactUpdate)
    (db : ContactDB) (uid : Nat) :
    update_contact cid body (update_contact cid body db uid).db uid =
      update_contact cid body db uid := by
  cases hf : db.find? (ownedBy cid uid) with
  | none =>
    have hres : update_contact cid body db uid = ⟨none, db, false⟩ := by
      simp [update_contact, hf]
    rw [hres]
    exact hres
  | some c =>
    have hpa : ownedBy cid uid (applyUpdate c body) = true := by
      have hpc : ownedBy cid uid c = true := List.find?_some hf
      simpa [ownedBy, applyUpdate] using hpc
    have hres : update_contact cid body db uid =
        ⟨some (applyUpdate c body),
         replaceFirst (ownedBy cid uid) (applyUpdate c body) db, true⟩ := by
      simp [update_contact, hf]
    rw [hres]
    have hfind := find?_replaceFirst_self hpa hf
    simp [update_contact, hfind, applyUpdate_twice, replaceFirst_idem hpa]

/-- C5 counterexample: calling `confirmed_email` for an email with no
matching user row raises `AttributeError` (the `None` returned by
`get_user_by_email` has no attribute `confirmed`); it does not complete
silently. -/
theorem confirmed_email_missing_user_raises :
    confirmed_email "nobody@example.com" [bobUser] = .error "AttributeError" := rfl

/-- C5 amended: `confirmed_email` sets `confirmed = true` for the user
matching the given email, but when no user with that email exists it
raises `AttributeError` rather than failing silently. -/
theorem confirmed_email_amended (email : String) (db : UserDB) :
    (get_user_by_email email db = none →
      confirmed_email email db = .error "AttributeError") ∧
    ∀ u, get_user_by_email email db = some u →
      ∃ db', confirmed_email email db = .ok db' ∧
        get_user_by_email email db' = some { u with confirmed := true } := by
  constructor
  · intro h
    simp [confirmed_email, h]
  · intro u h
    refine ⟨replaceFirst (fun x => x.email == email)
      { u with confirmed := true } db, ?_, ?_⟩
    · simp [confirmed_email, h]
    · have h' : db.find? (fun x => x.email == email) = some u := h
      have hu : (u.email == email) = true := by
        have hs := List.find?_some h'
        simpa using hs
      have ha : (({ u with confirmed := true } : User).email == email) = true := hu
      exact find?_replaceFirst_self (a := { u with confirmed := true }) ha h'

/-- Witness for C5 amended: confirming an existing unconfirmed user. -/
theorem confirmed_email_amended_witness :
    get_user_by_email "bob@x.com" [bobUser] = some bobUser ∧
    ∃ db', confirmed_email "bob@x.com" [bobUser] = .ok db' ∧
      get_user_by_email "bob@x.com" db' = some { bobUser with confirmed := true } :=
  ⟨rfl, (confirmed_email_amended "bob@x.com" [bobUser]).2 bobUser rfl⟩

/-- C6 counterexample: a storage failure during creation is surfaced by the
route handler as status 404, not 500 — the handler's blanket `except`
catches the repository's `HTTPException(500)` and re-raises
`HTTPException(404, "NOT FOUND")`. -/
theorem create_failure_surfaces_404 :
    create_contact_route sampleCreate [] 1 true =
      (.failure 404 "NOT FOUND", []) ∧
    (create_contact_route sampleCreate [] 1 true).1.status ≠ 500 :=
  ⟨rfl, by decide⟩

/-- C6 amended: when creation hits a storage failure the repository raises
a 500 `HTTPException`, but the route handler catches it and surfaces
status 404 ("NOT FOUND") to the HTTP caller; on success the route returns
HTTP 201 with the persisted record, which carries the generated id and the
caller as owner and is appended to the table. -/
theorem create_route_statuses (body : ContactCreate) (db : ContactDB)
    (uid : Nat) :
    (create_contact_route body db uid true).1 = .failure 404 "NOT FOUND" ∧
    ∃ c, create_contact_route body db uid false = (.success 201 c, db ++ [c]) ∧
      c.user_id = uid ∧ c.id = nextId db :=
  ⟨rfl, ⟨_, rfl, rfl, rfl⟩⟩

end ContactsApp
